import Mathlib

/-!
Verification development for the Protein-preparation-pipeline repository.

The Python sources are shallowly embedded as executable Lean definitions:

* `src/pdb_retrival/downloader.py` — `get_pdb` (and the `validate_pdb_id`
  helper that `data_retriever.py` imports from it);
* `src/pdb_retrival/data_retriever.py` — `PDBDataRetriever` and its parsing
  helpers, over a small model of BeautifulSoup element trees;
* `src/pdbqt_preparation/protonation.py` — `protonation`, `save_pqr2pdbqt`
  and `protonate_and_convert`.

Side effects (HTTP requests, file writes, subprocess invocations) are made
explicit as an event trace returned alongside the result; the outside world
(which files exist, which subprocesses exit 0, which HTTP status a URL
returns) is an explicit environment record.  Python exceptions are modelled
with `Except`.
-/

/-! ## Python string primitives -/

/-- Characters stripped by Python `str.strip()` (the ASCII whitespace
characters plus the non-breaking space, which Python treats as whitespace;
rarer Unicode whitespace is not modelled). -/
def isPySpace (c : Char) : Bool :=
  c == ' ' || c == '\t' || c == '\n' || c == '\r' || c == '\x0b' ||
    c == '\x0c' || c == '\u00A0'

/-- Python `str.strip()`: drop leading and trailing whitespace. -/
def pyStrip (s : String) : String :=
  String.mk (((s.toList.dropWhile isPySpace).reverse.dropWhile isPySpace).reverse)

/-- Helper for `pySplit`: accumulate the current field (reversed) while
scanning. -/
def pySplitAux (sep : Char) : List Char → List Char → List (List Char)
  | cur, [] => [cur.reverse]
  | cur, c :: cs =>
    if c == sep then cur.reverse :: pySplitAux sep [] cs
    else pySplitAux sep (c :: cur) cs

/-- Python `str.split(sep)` for a one-character separator (the only kind the
source uses): split on every occurrence, keeping empty fields. -/
def pySplit (sep : Char) (s : String) : List String :=
  (pySplitAux sep [] s.toList).map String.mk

/-- Non-overlapping left-to-right replacement, the semantics of Python
`str.replace`.  The `Nat` argument is fuel, kept equal to the length of the
remaining text so the recursion is structural; a replaced occurrence is
skipped whole. -/
def pyReplaceGo (pat rep : List Char) : Nat → List Char → List Char
  | 0, cs => cs
  | fuel + 1, cs =>
    match cs with
    | [] => []
    | c :: rest =>
      if pat.isPrefixOf cs then rep ++ pyReplaceGo pat rep fuel (cs.drop pat.length)
      else c :: pyReplaceGo pat rep fuel rest

/-- Python `s.replace(pat, rep)`; an empty pattern with an empty replacement
(the only way the source can produce one) leaves the string unchanged. -/
def pyReplace (s pat rep : String) : String :=
  if pat.toList.isEmpty then s
  else String.mk (pyReplaceGo pat.toList rep.toList s.toList.length s.toList)

/-- Python `str.lower()` (ASCII; the tokens compared are ASCII). -/
def pyLower (s : String) : String :=
  String.mk (s.toList.map Char.toLower)

/-- Python `str.startswith(pat)`. -/
def pyStartsWith (s pat : String) : Bool :=
  pat.toList.isPrefixOf s.toList

/-- Core digit loop of Python `int()`: consumes decimal digits, allowing a
single underscore between two digits (Python 3 digit grouping). `acc` is the
value of the digits consumed so far. -/
def pyIntCore : Nat → List Char → Option Nat
  | acc, [] => some acc
  | acc, '_' :: c :: cs =>
    if c.isDigit then pyIntCore (acc * 10 + (c.toNat - 48)) cs else none
  | acc, c :: cs =>
    if c.isDigit then pyIntCore (acc * 10 + (c.toNat - 48)) cs else none

/-- Digit sequence of Python `int()`: must start with a digit (no leading
underscore). -/
def pyIntDigits : List Char → Option Nat
  | [] => none
  | c :: cs => if c.isDigit then pyIntCore (c.toNat - 48) cs else none

/-- Python `int(s)` on an already-stripped string: optional sign followed by
a non-empty decimal digit sequence; `none` models a `ValueError`.  (Unicode
digits are not modelled.) -/
def pyInt (s : String) : Option Int :=
  match s.toList with
  | '+' :: rest => (pyIntDigits rest).map (fun n => (n : Int))
  | '-' :: rest => (pyIntDigits rest).map (fun n => -(n : Int))
  | cs => (pyIntDigits cs).map (fun n => (n : Int))

/-! ## BeautifulSoup element-tree model

An HTML document is a forest of nodes; an element node carries its tag name,
its `id` attribute (the only attribute the source ever filters on) and its
children.  A mutual inductive keeps all recursion structural. -/

mutual
inductive Html where
  | text (s : String)
  | elem (tag : String) (idAttr : Option String) (children : HtmlList)
inductive HtmlList where
  | nil
  | cons (hd : Html) (tl : HtmlList)
end

/-- Build an `HtmlList` from an ordinary list (for concrete documents). -/
def HtmlList.ofList : List Html → HtmlList
  | [] => .nil
  | h :: t => .cons h (HtmlList.ofList t)

mutual
/-- BeautifulSoup `find` on a single node: the node itself matches, or the
first match among its descendants in document order. -/
def findNode (tagName : String) (p : Option String → Bool) : Html → Option Html
  | .text _ => none
  | .elem t i cs =>
    if (t == tagName) && p i then some (.elem t i cs) else findNodes tagName p cs
/-- BeautifulSoup `find` over a forest: first match in document (pre-)order. -/
def findNodes (tagName : String) (p : Option String → Bool) : HtmlList → Option Html
  | .nil => none
  | .cons h hs =>
    match findNode tagName p h with
    | some r => some r
    | none => findNodes tagName p hs
end

mutual
/-- BeautifulSoup `find_all` on a single node (matches may nest). -/
def findAllNode (tagName : String) (p : Option String → Bool) : Html → List Html
  | .text _ => []
  | .elem t i cs =>
    (if (t == tagName) && p i then [Html.elem t i cs] else []) ++
      findAllNodes tagName p cs
/-- BeautifulSoup `find_all` over a forest, in document order. -/
def findAllNodes (tagName : String) (p : Option String → Bool) : HtmlList → List Html
  | .nil => []
  | .cons h hs => findAllNode tagName p h ++ findAllNodes tagName p hs
end

mutual
/-- BeautifulSoup `.text`: concatenation of all string descendants. -/
def Html.getText : Html → String
  | .text s => s
  | .elem _ _ cs => HtmlList.getText cs
def HtmlList.getText : HtmlList → String
  | .nil => ""
  | .cons h t => Html.getText h ++ HtmlList.getText t
end

mutual
/-- All string descendants of a node, in document order. -/
def Html.textStrings : Html → List String
  | .text s => [s]
  | .elem _ _ cs => HtmlList.textStrings cs
def HtmlList.textStrings : HtmlList → List String
  | .nil => []
  | .cons h t => Html.textStrings h ++ HtmlList.textStrings t
end

/-- BeautifulSoup `.stripped_strings`: every string descendant, stripped,
with whitespace-only strings skipped. -/
def Html.strippedStrings (h : Html) : List String :=
  (Html.textStrings h).map pyStrip |>.filter (fun s => s != "")

/-- `tag.find(name)` / `tag.<name>` attribute access: search the element's
descendants only (not the element itself). -/
def Html.findIn (tagName : String) (p : Option String → Bool) : Html → Option Html
  | .text _ => none
  | .elem _ _ cs => findNodes tagName p cs

/-- `tag.find_all(name, ...)` restricted to an element's descendants. -/
def Html.findAllIn (tagName : String) (p : Option String → Bool) : Html → List Html
  | .text _ => []
  | .elem _ _ cs => findAllNodes tagName p cs

/-- `soup.find(name, id=value)`: find by tag name and exact `id` attribute. -/
def findById (tagName idValue : String) (doc : HtmlList) : Option Html :=
  findNodes tagName (fun x => x == some idValue) doc

/-! ## POSIX path helpers (`os.path`) -/

/-- Index of the last occurrence of a character in a list, if any. -/
def lastIdxOf (target : Char) : List Char → Option Nat
  | [] => none
  | c :: cs =>
    match lastIdxOf target cs with
    | some i => some (i + 1)
    | none => if c == target then some 0 else none

/-- `os.path.basename` (POSIX): the part after the last slash. -/
def basename (p : String) : String :=
  (pySplit '/' p).getLastD ""

/-- Root part of `os.path.splitext` applied to a basename: everything before
the last dot, where dots leading the name do not start an extension. -/
def splitextBase (s : String) : String :=
  let cs := s.toList
  let lead := (cs.takeWhile (fun c => c == '.')).length
  match lastIdxOf '.' (cs.drop lead) with
  | none => s
  | some i => String.mk (cs.take (lead + i))

/-- `os.path.join` (POSIX) on two components. -/
def joinPath (a b : String) : String :=
  if b.toList.head? == some '/' then b
  else if a == "" || a.toList.getLast? == some '/' then a ++ b
  else a ++ "/" ++ b

/-- `os.path.dirname` (POSIX): everything up to the last slash, with
trailing slashes stripped unless the head is all slashes. -/
def dirname (p : String) : String :=
  match lastIdxOf '/' p.toList with
  | none => ""
  | some i =>
    let head := p.toList.take (i + 1)
    if head.all (fun c => c == '/') then String.mk head
    else String.mk ((head.reverse.dropWhile (fun c => c == '/')).reverse)

/-! ## Effects, environment and Python exceptions -/

/-- Observable side effects of the scripts. -/
inductive Event where
  | subprocessRun (args : List String)
  | httpGet (url : String)
  | fileWrite (path : String)
deriving DecidableEq, Repr

/-- The outside world: which paths name existing files, which subprocess
invocations exit with code 0, and which HTTP status each URL returns. -/
structure Env where
  fileExists : String → Bool
  subprocessOk : List String → Bool
  httpStatus : String → Nat

/-- The Python exceptions raised by the embedded code. -/
inductive PyErr where
  | valueError (msg : String)
  | fileNotFound (msg : String)
  | calledProcessError
  | indexError
deriving DecidableEq, Repr

/-! ## `src/pdb_retrival/downloader.py` -/

/-- Modelled from the spec: the constant `PDB_DOWNLOAD_URL` is imported from
`src/pdb_retrival/constants.py`, a file absent from the sources; the spec
describes it as "an identifier-templated URL" for the structure-file
download endpoint. `get_pdb` fills the identifier into the template. -/
def PDB_DOWNLOAD_URL (pdb_id : String) : String :=
  "https://files.rcsb.org/download/" ++ pdb_id ++ ".pdb"

/-- `get_pdb(pdb_id)`: GET the templated URL; on status 200 write the body
to `<pdb_id>.pdb` and return that filename, otherwise raise
`ValueError(f"Failed to download PDB file for {pdb_id}")`.  The trace
records the GET and any file write. -/
def get_pdb (env : Env) (pdb_id : String) : List Event × Except PyErr String :=
  let pdb_url := PDB_DOWNLOAD_URL pdb_id
  if env.httpStatus pdb_url = 200 then
    let pdb_filename := pdb_id ++ ".pdb"
    ([Event.httpGet pdb_url, Event.fileWrite pdb_filename], Except.ok pdb_filename)
  else
    ([Event.httpGet pdb_url],
      Except.error (PyErr.valueError ("Failed to download PDB file for " ++ pdb_id)))

/-- Modelled from the spec: `validate_pdb_id` is imported by
`data_retriever.py` from `downloader.py` but is absent from the sources; the
spec says an identifier is "a fixed-length alphanumeric code … validated
only by length/character-class" with length 4. -/
def validate_pdb_id (pdb_id : String) : Bool :=
  pdb_id.length == 4 && pdb_id.toList.all Char.isAlphanum

/-! ## `src/pdbqt_preparation/protonation.py`

The pH value is passed to the external tool as `str(pH_value)`; the model
takes the pH already in its string rendering, which is the only form the
code consumes. -/

/-- `protonation(input_file, pH_value, output_dir)`: check the input file
exists (raising `FileNotFoundError` naming it otherwise, before any
subprocess), derive `<output_dir>/<base>.pqr`, run `pdb2pqr` and propagate a
non-zero exit as `CalledProcessError`. -/
def protonation (env : Env) (input_file pH_value output_dir : String) :
    List Event × Except PyErr String :=
  if !(env.fileExists input_file) then
    ([], Except.error (PyErr.fileNotFound
      ("The input file " ++ input_file ++ " does not exist.")))
  else
    let base_name := splitextBase (basename input_file)
    let output_pqr_file := joinPath output_dir (base_name ++ ".pqr")
    let args := ["pdb2pqr", "--ff=AMBER", "--titration-state-method", "propka",
      "--with-ph", pH_value, input_file, output_pqr_file]
    if env.subprocessOk args then
      ([Event.subprocessRun args], Except.ok output_pqr_file)
    else
      ([Event.subprocessRun args], Except.error PyErr.calledProcessError)

/-- `save_pqr2pdbqt(input_pqr_file, output_dir=None)`: default the output
directory to the input's own directory, derive `<dir>/<base>.pdbqt`, run
`obabel` and propagate a non-zero exit. -/
def save_pqr2pdbqt (env : Env) (input_pqr_file : String)
    (output_dir : Option String) : List Event × Except PyErr String :=
  let out_dir := output_dir.getD (dirname input_pqr_file)
  let base_name := splitextBase (basename input_pqr_file)
  let output_pdbqt_file := joinPath out_dir (base_name ++ ".pdbqt")
  let args := ["obabel", "-ipqr", input_pqr_file, "-opdbqt", "-O", output_pdbqt_file]
  if env.subprocessOk args then
    ([Event.subprocessRun args], Except.ok output_pdbqt_file)
  else
    ([Event.subprocessRun args], Except.error PyErr.calledProcessError)

/-- `protonate_and_convert(input_file, output_dir, pH_value)`: protonation
followed by conversion, any failure aborting the pipeline.  Note the
source's parameter order: the output directory is the SECOND positional
parameter and the pH the THIRD. -/
def protonate_and_convert (env : Env) (input_file output_dir pH_value : String) :
    List Event × Except PyErr String :=
  match protonation env input_file pH_value output_dir with
  | (t1, Except.error e) => (t1, Except.error e)
  | (t1, Except.ok output_pdb_file) =>
    match save_pqr2pdbqt env output_pdb_file (some output_dir) with
    | (t2, r) => (t1 ++ t2, r)

/-! ## `src/pdb_retrival/data_retriever.py` -/

/-- The retriever object: a validated PDB id and the structure-page URL. -/
structure PDBDataRetriever where
  pdb_id : String
  url : String
deriving DecidableEq, Repr

/-- `PDBDataRetriever.__init__`: reject the id with a `ValueError` unless
`validate_pdb_id` accepts it.  The constructor performs no I/O, so its trace
is empty on both branches. -/
def PDBDataRetriever.init (pdb_id : String) :
    List Event × Except PyErr PDBDataRetriever :=
  if !(validate_pdb_id pdb_id) then
    ([], Except.error (PyErr.valueError
      "Invalid PDB ID format: It must be a 4-letter PDB code."))
  else
    ([], Except.ok
      { pdb_id := pdb_id, url := "https://www.rcsb.org/structure/" ++ pdb_id })

namespace PDBDataRetriever

/-- `_get_experiment_method`: the `li#exp_header_0_method` text with its
`strong` label removed and stripped, if both nodes exist. -/
def _get_experiment_method (doc : HtmlList) : Option String :=
  match findById "li" "exp_header_0_method" doc with
  | none => none
  | some method_tag =>
    match Html.findIn "strong" (fun _ => true) method_tag with
    | none => none
    | some st =>
      some (pyStrip (pyReplace (Html.getText method_tag) (Html.getText st) ""))

/-- `_get_resolution`: same pattern on
`li#exp_header_0_diffraction_resolution`. -/
def _get_resolution (doc : HtmlList) : Option String :=
  match findById "li" "exp_header_0_diffraction_resolution" doc with
  | none => none
  | some resolution_tag =>
    match Html.findIn "strong" (fun _ => true) resolution_tag with
    | none => none
    | some st =>
      some (pyStrip (pyReplace (Html.getText resolution_tag) (Html.getText st) ""))

/-- `_is_date_format` without the regex engine: the characters of a
`YYYY-MM-DD` token. -/
def dateCore : List Char → Bool
  | [a, b, c, d, '-', e, f, '-', g, h] =>
    a.isDigit && b.isDigit && c.isDigit && d.isDigit &&
      e.isDigit && f.isDigit && g.isDigit && h.isDigit
  | _ => false

/-- `_is_date_format`: `re.match(r"^\d{4}-\d{2}-\d{2}$", text)`; by Python
regex semantics `$` also matches just before one trailing newline. -/
def _is_date_format (text : String) : Bool :=
  let cs := text.toList
  dateCore cs ||
    (match cs.getLast? with
     | some '\n' => dateCore cs.dropLast
     | _ => false)

/-- The list comprehension of `_get_release_date`: keep the tokens whose
stripped form is non-empty and date-shaped. -/
def dateFilter (date_parts : List String) : List String :=
  date_parts.filter (fun part => (pyStrip part != "") && _is_date_format (pyStrip part))

/-- `_get_release_date`: among the stripped strings of
`li#header_deposited-released-dates`, the last date-shaped token, with
non-breaking spaces removed and stripped. -/
def _get_release_date (doc : HtmlList) : Option String :=
  match findById "li" "header_deposited-released-dates" doc with
  | none => none
  | some release_date_tag =>
    let dates := dateFilter (Html.strippedStrings release_date_tag)
    match dates.getLast? with
    | some d => some (pyStrip (pyReplace d "\u00A0" ""))
    | none => none

/-- `_get_macromolecule_name`: the stripped text of the first `td` inside
`tr#macromolecule-entityId-1-rowDescription`. -/
def _get_macromolecule_name (doc : HtmlList) : Option String :=
  match findById "tr" "macromolecule-entityId-1-rowDescription" doc with
  | none => none
  | some macromolecule_row =>
    match Html.findIn "td" (fun _ => true) macromolecule_row with
    | none => none
    | some td_element => some (pyStrip (Html.getText td_element))

/-- `_get_size_kda`: `size_tag.text.split(":")[1].strip()` — the index `[1]`
is unguarded, so a present node whose text has no colon raises `IndexError`. -/
def _get_size_kda (doc : HtmlList) : Except PyErr (Option String) :=
  match findById "li" "contentStructureWeight" doc with
  | none => Except.ok none
  | some size_tag =>
    match pySplit ':' (Html.getText size_tag) with
    | _ :: seg :: _ => Except.ok (some (pyStrip seg))
    | _ => Except.error PyErr.indexError

/-- `_get_unique_chains`: like `_get_size_kda` but the `int(...)` and the
index are wrapped in `try/except (IndexError, ValueError)`, both mapped to
`None`. -/
def _get_unique_chains (doc : HtmlList) : Option Int :=
  match findById "li" "contentProteinChainCount" doc with
  | none => none
  | some chains_tag =>
    match pySplit ':' (Html.getText chains_tag) with
    | _ :: seg :: _ => pyInt (pyStrip seg)
    | _ => none

/-- `_get_classification`: stripped text of the first `a` inside
`li#header_classification`. -/
def _get_classification (doc : HtmlList) : Option String :=
  match findById "li" "header_classification" doc with
  | none => none
  | some classification_tag =>
    match Html.findIn "a" (fun _ => true) classification_tag with
    | none => none
    | some a => some (pyStrip (Html.getText a))

/-- `_get_organism`: same pattern on `li#header_organism`. -/
def _get_organism (doc : HtmlList) : Option String :=
  match findById "li" "header_organism" doc with
  | none => none
  | some organism_tag =>
    match Html.findIn "a" (fun _ => true) organism_tag with
    | none => none
    | some a => some (pyStrip (Html.getText a))

/-- `_get_expression_system`: same pattern on `li#header_expression-system`. -/
def _get_expression_system (doc : HtmlList) : Option String :=
  match findById "li" "header_expression-system" doc with
  | none => none
  | some expression_system_tag =>
    match Html.findIn "a" (fun _ => true) expression_system_tag with
    | none => none
    | some a => some (pyStrip (Html.getText a))

/-- `_get_mutation`: strip the `strong` label from the text of
`li#header_mutation`; the flag is `mutation_text.lower() != "no"`. -/
def _get_mutation (doc : HtmlList) : Option Bool :=
  match findById "li" "header_mutation" doc with
  | none => none
  | some mutation_tag =>
    match Html.findIn "strong" (fun _ => true) mutation_tag with
    | none => none
    | some st =>
      let mutation_text :=
        pyStrip (pyReplace (Html.getText mutation_tag) (Html.getText st) "")
      some (pyLower mutation_text != "no")

/-- The `id=lambda x: x and x.startswith("ligand_row_")` filter of
`_get_small_molecules`: an absent or empty id is falsy. -/
def ligandRowPred (x : Option String) : Bool :=
  match x with
  | none => false
  | some s => (s != "") && pyStartsWith s "ligand_row_"

/-- `_get_small_molecule_name`: stripped text of the row's first `strong`. -/
def _get_small_molecule_name (row : Html) : Option String :=
  match Html.findIn "strong" (fun _ => true) row with
  | none => none
  | some strong_tag => some (pyStrip (Html.getText strong_tag))

/-- Python `dict` assignment `d[k] = v` on an insertion-ordered association
list: overwrite in place if the key exists, else append. -/
def dictInsert (d : List (String × String)) (k v : String) : List (String × String) :=
  if d.any (fun q => q.1 == k) then
    d.map (fun q => if q.1 == k then (k, v) else q)
  else d ++ [(k, v)]

/-- Lookup in the association-list model of a Python `dict`. -/
def dictLookup (d : List (String × String)) (k : String) : Option String :=
  match d.find? (fun q => q.1 == k) with
  | none => none
  | some q => some q.2

/-- Loop body of `_get_small_molecules`: a row without an `a` link
contributes nothing; otherwise its id maps to the `strong` name, or to the
sentinel `"Name not found"` when the name node is missing. -/
def smallMoleculeStep (acc : List (String × String)) (row : Html) :
    List (String × String) :=
  match Html.findIn "a" (fun _ => true) row with
  | none => acc
  | some ligand_id_tag =>
    let ligand_id := pyStrip (Html.getText ligand_id_tag)
    match _get_small_molecule_name row with
    | some ligand_name => dictInsert acc ligand_id ligand_name
    | none => dictInsert acc ligand_id "Name not found"

/-- `_get_small_molecules`: fold the ligand rows of `div#smallMoleculespanel`
into a dict; an empty dict is returned as `None` (Python's falsiness check
`small_molecules if small_molecules else None`). -/
def _get_small_molecules (doc : HtmlList) : Option (List (String × String)) :=
  match findById "div" "smallMoleculespanel" doc with
  | none => none
  | some small_molecules_panel =>
    let ligand_rows := Html.findAllIn "tr" ligandRowPred small_molecules_panel
    let small_molecules := ligand_rows.foldl smallMoleculeStep []
    if small_molecules.isEmpty then none else some small_molecules

end PDBDataRetriever

/-- The `experiment_data` group of the parsed record. -/
structure ExperimentData where
  method : Option String
  resolution : Option String
  release_date : Option String
deriving DecidableEq, Repr

/-- The `macromolecules` group of the parsed record. -/
structure Macromolecules where
  name : Option String
  total_weight : Option String
  unique_protein_chains : Option Int
  classification : Option String
  organism : Option String
  expression_system : Option String
  mutation : Option Bool
deriving DecidableEq, Repr

/-- The record returned by `parse_data`. -/
structure ParsedData where
  experiment_data : ExperimentData
  macromolecules : Macromolecules
  small_molecules : Option (List (String × String))
deriving DecidableEq, Repr

/-- `parse_data`: assemble the nested record; an uncaught exception from a
field extractor (only `_get_size_kda` can raise) aborts the whole parse. -/
def PDBDataRetriever.parse_data (doc : HtmlList) : Except PyErr ParsedData :=
  match PDBDataRetriever._get_size_kda doc with
  | Except.error e => Except.error e
  | Except.ok total_weight =>
    Except.ok
      { experiment_data :=
          { method := PDBDataRetriever._get_experiment_method doc
            resolution := PDBDataRetriever._get_resolution doc
            release_date := PDBDataRetriever._get_release_date doc }
        macromolecules :=
          { name := PDBDataRetriever._get_macromolecule_name doc
            total_weight := total_weight
            unique_protein_chains := PDBDataRetriever._get_unique_chains doc
            classification := PDBDataRetriever._get_classification doc
            organism := PDBDataRetriever._get_organism doc
            expression_system := PDBDataRetriever._get_expression_system doc
            mutation := PDBDataRetriever._get_mutation doc }
        small_molecules := PDBDataRetriever._get_small_molecules doc }

/-! ## Concrete fixtures for witnesses and counterexamples -/

/-- An environment where the input file exists, every subprocess exits 0 and
every HTTP GET returns 200. -/
def envAllOk : Env :=
  { fileExists := fun _ => true, subprocessOk := fun _ => true,
    httpStatus := fun _ => 200 }

/-- An environment where no file exists, every subprocess fails and every
HTTP GET returns 404. -/
def envAllFail : Env :=
  { fileExists := fun _ => false, subprocessOk := fun _ => false,
    httpStatus := fun _ => 404 }

/-- A release-date container holding a deposit date and a release date. -/
def dateLi : Html :=
  Html.elem "li" (some "header_deposited-released-dates")
    (HtmlList.ofList [Html.text "Deposited: ", Html.text "2019-05-01",
      Html.text " Released: ", Html.text "2019-08-07"])

/-- A document holding only `dateLi`. -/
def dateDoc : HtmlList := HtmlList.ofList [dateLi]

/-- The label node of a mutation field. -/
def mutStrong : Html :=
  Html.elem "strong" none (HtmlList.ofList [Html.text "Mutation(s): "])

/-- A mutation field whose value is `No`. -/
def mutLi : Html :=
  Html.elem "li" (some "header_mutation")
    (HtmlList.ofList [mutStrong, Html.text "No"])

/-- A document holding only `mutLi`. -/
def mutDoc : HtmlList := HtmlList.ofList [mutLi]

/-- A small-molecules panel with no ligand rows. -/
def smPanel : Html := Html.elem "div" (some "smallMoleculespanel") HtmlList.nil

/-- A document holding only the empty small-molecules panel. -/
def smPanelEmpty : HtmlList := HtmlList.ofList [smPanel]

/-- A ligand identifier link. -/
def ligA : Html := Html.elem "a" none (HtmlList.ofList [Html.text "HEM"])

/-- A ligand row with an identifier link but no `strong` name node. -/
def ligRow : Html :=
  Html.elem "tr" (some "ligand_row_1") (HtmlList.ofList [ligA])

/-- A structure-weight node whose text has no colon. -/
def badWeightLi : Html :=
  Html.elem "li" (some "contentStructureWeight")
    (HtmlList.ofList [Html.text "no colon here"])

/-- A document holding only `badWeightLi`. -/
def badWeightDoc : HtmlList := HtmlList.ofList [badWeightLi]

/-- A chain-count node whose text after the colon is not an integer. -/
def chainsLi : Html :=
  Html.elem "li" (some "contentProteinChainCount")
    (HtmlList.ofList [Html.text "Unique protein chains: abc"])

/-- A document holding only `chainsLi`. -/
def chainsDoc : HtmlList := HtmlList.ofList [chainsLi]

/-- A document whose one element matches none of the ids `parse_data` looks
up. -/
def noMatchDoc : HtmlList :=
  HtmlList.ofList [Html.elem "li" (some "unrelated") (HtmlList.ofList [Html.text "hello"])]

/-! ## Helper lemmas -/

open PDBDataRetriever

/-- After an overwriting `dictInsert`, looking the key up yields the new
value: case where the key was already present. -/
theorem find?_map_overwrite (k v : String) :
    ∀ d : List (String × String), d.any (fun q => q.1 == k) = true →
      (d.map (fun q => if q.1 == k then (k, v) else q)).find?
        (fun q => q.1 == k) = some (k, v) := by
  intro d hd
  induction d with
  | nil => simp at hd
  | cons p t ih =>
    rw [List.map_cons]
    by_cases hp : (p.1 == k) = true
    · rw [if_pos hp, List.find?_cons_of_pos]
      exact beq_self_eq_true k
    · rw [if_neg hp]
      have hpf : (p.1 == k) = false := by simpa using hp
      simp only [List.find?, hpf]
      simp only [List.any_cons, hp, Bool.false_or] at hd
      exact ih hd

/-- After an appending `dictInsert`, looking the key up yields the new
value: case where the key was absent. -/
theorem find?_append_new (k v : String) :
    ∀ d : List (String × String), d.any (fun q => q.1 == k) = false →
      (d ++ [(k, v)]).find? (fun q => q.1 == k) = some (k, v) := by
  intro d hd
  induction d with
  | nil => simp [List.find?]
  | cons p t ih =>
    simp only [List.any_cons, Bool.or_eq_false_iff] at hd
    simp [List.find?, hd.1, ih hd.2]

/-- `dictInsert` followed by `dictLookup` at the same key returns the
inserted value. -/
theorem dictLookup_dictInsert (d : List (String × String)) (k v : String) :
    dictLookup (dictInsert d k v) k = some v := by
  unfold dictLookup dictInsert
  by_cases hd : (d.any (fun q => q.1 == k)) = true
  · rw [if_pos hd, find?_map_overwrite k v d hd]
  · rw [if_neg hd]
    simp only [Bool.not_eq_true] at hd
    rw [find?_append_new k v d hd]

/-- Folding `smallMoleculeStep` over rows none of which has an `a` link
leaves the accumulator unchanged. -/
theorem foldl_step_no_link :
    ∀ (rows : List Html) (acc : List (String × String)),
      (∀ r ∈ rows, Html.findIn "a" (fun _ => true) r = none) →
      rows.foldl smallMoleculeStep acc = acc := by
  intro rows
  induction rows with
  | nil => intro acc _; rfl
  | cons r t ih =>
    intro acc h
    have hr : Html.findIn "a" (fun _ => true) r = none :=
      h r (List.mem_cons_self r t)
    simp only [List.foldl_cons]
    rw [show smallMoleculeStep acc r = acc by simp [smallMoleculeStep, hr]]
    exact ih acc (fun x hx => h x (List.mem_cons_of_mem r hx))

/-! ## Claims -/

/-- Claim C1 (code bug, evaluated at the failing input): the spec and the
in-repo caller `main.py` pass the arguments as (file, pH, output directory),
but `protonate_and_convert` declares them as (file, output directory, pH).
Called positionally in the spec's order with file `in/x.pdb`, pH `7.4` and
output directory `out`, the pipeline binds the pH to the output directory:
it succeeds with final path `7.4/x.pdbqt` instead of the claimed
`join(out, x.pdbqt)`. -/
theorem C1_swapped_argument_order :
    (protonate_and_convert envAllOk "in/x.pdb" "7.4" "out").2 =
      Except.ok "7.4/x.pdbqt" ∧
    "7.4/x.pdbqt" ≠ joinPath "out" (splitextBase (basename "in/x.pdb") ++ ".pdbqt") :=
  ⟨rfl, by decide⟩

/-- Claim C2: for a non-existing input file, `protonation` — and hence
`protonate_and_convert`, which runs it first — returns the
`FileNotFoundError` whose message names the path, with an empty event
trace, so before any subprocess is invoked. -/
theorem C2_missing_input_aborts_before_subprocess (env : Env)
    (f pH d : String) (h : env.fileExists f = false) :
    protonation env f pH d =
      ([], Except.error (PyErr.fileNotFound
        ("The input file " ++ f ++ " does not exist."))) ∧
    protonate_and_convert env f d pH =
      ([], Except.error (PyErr.fileNotFound
        ("The input file " ++ f ++ " does not exist."))) ∧
    ∃ pre post, "The input file " ++ f ++ " does not exist." = pre ++ f ++ post := by
  have hp : protonation env f pH d =
      ([], Except.error (PyErr.fileNotFound
        ("The input file " ++ f ++ " does not exist."))) := by
    simp [protonation, h]
  refine ⟨hp, ?_, "The input file ", " does not exist.", rfl⟩
  simp [protonate_and_convert, hp]

/-- Claim C2 witness: a concrete missing file. -/
theorem C2_missing_input_witness :
    protonation envAllFail "missing.pdb" "7.0" "out" =
      ([], Except.error (PyErr.fileNotFound
        "The input file missing.pdb does not exist.")) :=
  (C2_missing_input_aborts_before_subprocess envAllFail "missing.pdb" "7.0" "out" rfl).1

/-- Claim C3 counterexample: `get_pdb` performs no identifier validation.
`"1ab"` is rejected by `validate_pdb_id`, yet `get_pdb` still issues the
HTTP GET for it instead of failing on the malformed identifier. -/
theorem C3_counterexample_no_validation :
    validate_pdb_id "1ab" = false ∧
    Event.httpGet (PDB_DOWNLOAD_URL "1ab") ∈ (get_pdb envAllFail "1ab").1 :=
  ⟨rfl, by decide⟩

/-- Claim C3 (amended): `get_pdb` applies no identifier validation at all —
for every identifier string, well-formed or not, its first action is the
HTTP GET to the download URL. -/
theorem C3_get_pdb_requests_without_validation (env : Env) (pdb_id : String) :
    ((get_pdb env pdb_id).1).head? =
      some (Event.httpGet (PDB_DOWNLOAD_URL pdb_id)) := by
  unfold get_pdb
  by_cases h : env.httpStatus (PDB_DOWNLOAD_URL pdb_id) = 200 <;> simp [h]

/-- Claim C4: on a non-200 download status `get_pdb` raises a `ValueError`
whose message ends in the identifier and its trace holds no file write; on
status 200 it writes `<id>.pdb` and returns that filename. -/
theorem C4_download_status_behaviour (env : Env) (pdb_id : String) :
    (env.httpStatus (PDB_DOWNLOAD_URL pdb_id) ≠ 200 →
      get_pdb env pdb_id =
        ([Event.httpGet (PDB_DOWNLOAD_URL pdb_id)],
          Except.error (PyErr.valueError
            ("Failed to download PDB file for " ++ pdb_id))) ∧
      (∀ q, Event.fileWrite q ∉ (get_pdb env pdb_id).1) ∧
      ∃ pre, "Failed to download PDB file for " ++ pdb_id = pre ++ pdb_id) ∧
    (env.httpStatus (PDB_DOWNLOAD_URL pdb_id) = 200 →
      get_pdb env pdb_id =
        ([Event.httpGet (PDB_DOWNLOAD_URL pdb_id),
            Event.fileWrite (pdb_id ++ ".pdb")],
          Except.ok (pdb_id ++ ".pdb"))) := by
  constructor
  · intro h
    have he : get_pdb env pdb_id =
        ([Event.httpGet (PDB_DOWNLOAD_URL pdb_id)],
          Except.error (PyErr.valueError
            ("Failed to download PDB file for " ++ pdb_id))) := by
      simp [get_pdb, h]
    refine ⟨he, ?_, "Failed to download PDB file for ", rfl⟩
    intro q
    rw [he]
    simp
  · intro h
    simp [get_pdb, h]

/-- Claim C4 witness: concrete identifier under a 404 and under a 200
environment. -/
theorem C4_download_status_witness :
    get_pdb envAllFail "1abc" =
      ([Event.httpGet (PDB_DOWNLOAD_URL "1abc")],
        Except.error (PyErr.valueError "Failed to download PDB file for 1abc")) ∧
    get_pdb envAllOk "1abc" =
      ([Event.httpGet (PDB_DOWNLOAD_URL "1abc"), Event.fileWrite "1abc.pdb"],
        Except.ok "1abc.pdb") :=
  ⟨((C4_download_status_behaviour envAllFail "1abc").1 (by decide)).1,
    (C4_download_status_behaviour envAllOk "1abc").2 rfl⟩

/-- Claim C5: for every string rejected by `validate_pdb_id` (the spec's
4-character alphanumeric rule; the helper itself is absent from the sources
and modelled from the spec), the constructor returns the `ValueError` with
an empty event trace — in particular no network access happens before the
failure. -/
theorem C5_invalid_id_rejected_without_network (pdb_id : String)
    (h : validate_pdb_id pdb_id = false) :
    PDBDataRetriever.init pdb_id =
      ([], Except.error (PyErr.valueError
        "Invalid PDB ID format: It must be a 4-letter PDB code.")) := by
  simp [PDBDataRetriever.init, h]

/-- Claim C5 witness: a concrete malformed identifier (wrong length and a
non-alphanumeric character). -/
theorem C5_invalid_id_witness :
    PDBDataRetriever.init "1ab!" =
      ([], Except.error (PyErr.valueError
        "Invalid PDB ID format: It must be a 4-letter PDB code.")) :=
  C5_invalid_id_rejected_without_network "1ab!" rfl

/-- Claim C6: when none of the eleven fixed structural ids that `parse_data`
looks up is present in the document, the parse succeeds and every leaf field
of the record — the three experiment fields, the seven macromolecule fields
and the small-molecule mapping — is `none`. -/
theorem C6_empty_markup_all_fields_absent (doc : HtmlList)
    (h1 : findById "li" "exp_header_0_method" doc = none)
    (h2 : findById "li" "exp_header_0_diffraction_resolution" doc = none)
    (h3 : findById "li" "header_deposited-released-dates" doc = none)
    (h4 : findById "tr" "macromolecule-entityId-1-rowDescription" doc = none)
    (h5 : findById "li" "contentStructureWeight" doc = none)
    (h6 : findById "li" "contentProteinChainCount" doc = none)
    (h7 : findById "li" "header_classification" doc = none)
    (h8 : findById "li" "header_organism" doc = none)
    (h9 : findById "li" "header_expression-system" doc = none)
    (h10 : findById "li" "header_mutation" doc = none)
    (h11 : findById "div" "smallMoleculespanel" doc = none) :
    PDBDataRetriever.parse_data doc =
      Except.ok ⟨⟨none, none, none⟩,
        ⟨none, none, none, none, none, none, none⟩, none⟩ := by
  simp [PDBDataRetriever.parse_data, _get_experiment_method, _get_resolution,
    _get_release_date, _get_macromolecule_name, _get_size_kda,
    _get_unique_chains, _get_classification, _get_organism,
    _get_expression_system, _get_mutation, _get_small_molecules,
    h1, h2, h3, h4, h5, h6, h7, h8, h9, h10, h11]

/-- Claim C6 witness: a document with one unrelated element. -/
theorem C6_empty_markup_witness :
    PDBDataRetriever.parse_data noMatchDoc =
      Except.ok ⟨⟨none, none, none⟩,
        ⟨none, none, none, none, none, none, none⟩, none⟩ :=
  C6_empty_markup_all_fields_absent noMatchDoc
    rfl rfl rfl rfl rfl rfl rfl rfl rfl rfl rfl

/-- Claim C7: when the release-date container is present and at least one of
its stripped string tokens is date-shaped, the extractor returns the last
such token with non-breaking spaces removed and stripped; in particular a
container with exactly two date-like tokens yields the second one. -/
theorem C7_release_date_last_token (doc : HtmlList) (tg : Html)
    (hfind : findById "li" "header_deposited-released-dates" doc = some tg)
    (hne : dateFilter (Html.strippedStrings tg) ≠ []) :
    PDBDataRetriever._get_release_date doc =
      some (pyStrip (pyReplace
        ((dateFilter (Html.strippedStrings tg)).getLast hne) "\u00A0" "")) ∧
    ∀ d1 d2, dateFilter (Html.strippedStrings tg) = [d1, d2] →
      PDBDataRetriever._get_release_date doc =
        some (pyStrip (pyReplace d2 "\u00A0" "")) := by
  constructor
  · unfold PDBDataRetriever._get_release_date
    rw [hfind]
    simp [List.getLast?_eq_getLast_of_ne_nil hne]
  · intro d1 d2 h12
    unfold PDBDataRetriever._get_release_date
    rw [hfind]
    simp [h12]

/-- Claim C7 witness: a container holding a deposit date and a release
date yields the release (second) date. -/
theorem C7_release_date_witness :
    PDBDataRetriever._get_release_date dateDoc = some "2019-08-07" :=
  (C7_release_date_last_token dateDoc dateLi rfl (by decide)).2
    "2019-05-01" "2019-08-07" rfl

/-- Claim C8: when the mutation node is absent the flag is absent; when the
node and its `strong` label are present, the flag is `false` exactly when
the text with the label removed, stripped and lowercased equals `no`, and
`true` for every other stripped value. -/
theorem C8_mutation_flag_semantics (doc : HtmlList) :
    (findById "li" "header_mutation" doc = none →
      PDBDataRetriever._get_mutation doc = none) ∧
    ∀ tg st, findById "li" "header_mutation" doc = some tg →
      Html.findIn "strong" (fun _ => true) tg = some st →
      ((PDBDataRetriever._get_mutation doc = some false ↔
          pyLower (pyStrip (pyReplace (Html.getText tg) (Html.getText st) "")) = "no") ∧
        (PDBDataRetriever._get_mutation doc = some true ↔
          pyLower (pyStrip (pyReplace (Html.getText tg) (Html.getText st) "")) ≠ "no")) := by
  constructor
  · intro h
    simp [PDBDataRetriever._get_mutation, h]
  · intro tg st h1 h2
    have he : PDBDataRetriever._get_mutation doc =
        some (pyLower (pyStrip (pyReplace (Html.getText tg) (Html.getText st) "")) != "no") := by
      simp [PDBDataRetriever._get_mutation, h1, h2]
    by_cases hm :
        pyLower (pyStrip (pyReplace (Html.getText tg) (Html.getText st) "")) = "no" <;>
      constructor <;> rw [he] <;> simp [hm]

/-- Claim C8 witness: a present node whose stripped value is `No` yields the
flag `false`. -/
theorem C8_mutation_flag_witness :
    PDBDataRetriever._get_mutation mutDoc = some false :=
  (((C8_mutation_flag_semantics mutDoc).2 mutLi mutStrong rfl rfl).1).mpr rfl

/-- Claim C9: a ligand row carrying an identifier link but no `strong` name
node maps its identifier to the sentinel string `Name not found`; and a
present small-molecules panel none of whose ligand rows has an identifier
link produces an absent mapping (`none`), not an empty one. -/
theorem C9_small_molecules_sentinel_and_empty :
    (∀ (acc : List (String × String)) (row aTag : Html),
      Html.findIn "a" (fun _ => true) row = some aTag →
      Html.findIn "strong" (fun _ => true) row = none →
      dictLookup (smallMoleculeStep acc row) (pyStrip (Html.getText aTag)) =
        some "Name not found") ∧
    ∀ (doc : HtmlList) (panel : Html),
      findById "div" "smallMoleculespanel" doc = some panel →
      (∀ r ∈ Html.findAllIn "tr" ligandRowPred panel,
        Html.findIn "a" (fun _ => true) r = none) →
      PDBDataRetriever._get_small_molecules doc = none := by
  constructor
  · intro acc row aTag h1 h2
    have hn : PDBDataRetriever._get_small_molecule_name row = none := by
      simp [PDBDataRetriever._get_small_molecule_name, h2]
    simp [smallMoleculeStep, h1, hn, dictLookup_dictInsert]
  · intro doc panel hp hall
    simp [PDBDataRetriever._get_small_molecules, hp,
      foldl_step_no_link _ _ hall]

/-- Claim C9 witness: a concrete nameless ligand row, and a concrete panel
with no ligand rows. -/
theorem C9_small_molecules_witness :
    dictLookup (smallMoleculeStep [] ligRow) "HEM" = some "Name not found" ∧
    PDBDataRetriever._get_small_molecules smPanelEmpty = none :=
  ⟨C9_small_molecules_sentinel_and_empty.1 [] ligRow ligA rfl rfl,
    C9_small_molecules_sentinel_and_empty.2 smPanelEmpty smPanel rfl
      (by intro r hr; simp [smPanel, Html.findAllIn, findAllNodes] at hr)⟩

/-- Claim C10: fault tolerance is per-missing-node, not per-malformed-node —
on a document whose structure-weight node is present with colon-free text,
`parse_data` raises `IndexError` instead of returning an absent field; by
contrast the chain-count extractor returns `none` whenever the text after
the colon of a present node is not a valid integer. -/
theorem C10_size_raises_chains_tolerates :
    PDBDataRetriever.parse_data badWeightDoc = Except.error PyErr.indexError ∧
    ∀ (doc : HtmlList) (tg : Html) (a seg : String) (rest : List String),
      findById "li" "contentProteinChainCount" doc = some tg →
      pySplit ':' (Html.getText tg) = a :: seg :: rest →
      pyInt (pyStrip seg) = none →
      PDBDataRetriever._get_unique_chains doc = none := by
  constructor
  · rfl
  · intro doc tg a seg rest h1 h2 h3
    simp [PDBDataRetriever._get_unique_chains, h1, h2, h3]

/-- Claim C10 witness: a concrete chain-count node whose value text is not
an integer is tolerated as `none`. -/
theorem C10_chains_tolerates_witness :
    PDBDataRetriever._get_unique_chains chainsDoc = none :=
  C10_size_raises_chains_tolerates.2 chainsDoc chainsLi
    "Unique protein chains" " abc" [] rfl rfl rfl
